import Mathlib

/-!
Verification development for the rint-data-manager DVC remote storage core.

The definitions below are a shallow embedding of the Python source:
  * src/backend/routers/dvc_remote.py  (hash-path derivation, GET/PUT/HEAD
    handlers, upload-side catalog recording)
  * src/backend/routers/data.py        (hash-path derivation, folder zip
    construction, catalog download endpoint)
  * src/backend/dvc_auth.py            (authentication gate)

Conventions of the embedding:
  * Filesystem paths are lists of segments relative to the storage root
    (DVC_STORAGE_PATH); the filesystem is an association list from paths to
    stored blobs, where lookup takes the first (most recent) binding.
  * Stored content is a Blob: either raw bytes or an already-parsed
    directory manifest (standing for the JSON bytes of a .dir manifest, at
    the granularity the Python json.load parser observes them).
  * Python HTTPException is an explicit error value carrying status code
    and detail; fallible code returns Except.
  * bcrypt password verification and the SQLAlchemy commit are external
    collaborators and appear as function parameters.
-/

/-- Bytes of a file body, one Nat per byte. -/
abbrev Bytes := List Nat

/-- One member record of a DVC .dir directory manifest: the JSON objects
carry a md5 field and a relpath field (data.py read_dir_metadata /
create_folder_zip). -/
structure DirEntry where
  md5 : String
  relpath : String
deriving DecidableEq, Repr

/-- One entry of the outs list of a .dvc or .dir sidecar YAML file, at the
granularity yaml.safe_load hands it to the metadata extractors. -/
structure OutEntry where
  md5 : Option String
  size : Option Nat
  nfiles : Option Nat
  path : Option String
deriving DecidableEq, Repr

/-- Stored content: raw bytes, a directory manifest as the JSON parser of
read_dir_metadata sees it, or a sidecar manifest as yaml.safe_load sees
it. -/
inductive Blob where
  | bytes (data : Bytes)
  | dirManifest (entries : List DirEntry)
  | yamlManifest (outs : List OutEntry)
deriving DecidableEq, Repr

/-- A path relative to the DVC storage root, as a list of segments. -/
abbrev StorePath := List String

/-- The filesystem under the storage root: association list, first binding
wins. -/
abbrev FS := List (StorePath × Blob)

/-- Look a path up in the filesystem. -/
def fsLookup (fs : FS) (p : StorePath) : Option Blob :=
  match fs with
  | [] => none
  | (q, b) :: rest => if q = p then some b else fsLookup rest p

/-- Record that a path now holds a blob (shadows any previous binding). -/
def fsSet (fs : FS) (p : StorePath) (b : Blob) : FS :=
  (p, b) :: fs

/-- Python HTTPException(status_code, detail). -/
structure HTTPError where
  status_code : Nat
  detail : String
deriving DecidableEq, Repr

instance {ε α : Type _} [DecidableEq ε] [DecidableEq α] : DecidableEq (Except ε α) := fun a b =>
  match a, b with
  | Except.ok x, Except.ok y =>
    if h : x = y then Decidable.isTrue (by rw [h])
    else Decidable.isFalse (fun c => h (Except.ok.inj c))
  | Except.error x, Except.error y =>
    if h : x = y then Decidable.isTrue (by rw [h])
    else Decidable.isFalse (fun c => h (Except.error.inj c))
  | Except.ok _, Except.error _ => Decidable.isFalse (fun c => Except.noConfusion c)
  | Except.error _, Except.ok _ => Decidable.isFalse (fun c => Except.noConfusion c)

/-- Split a character list at every slash, keeping empty pieces; kernel
computable helper for pySplit. -/
def splitSlash : List Char → List (List Char)
  | [] => [[]]
  | c :: rest =>
    let r := splitSlash rest
    if c = '/' then [] :: r
    else (c :: r.headD []) :: r.tail

/-- Model of the Python str.split on a single slash: every occurrence of the
separator splits, empty segments are kept, and the empty string yields one
empty segment. -/
def pySplit (s : String) : List String :=
  (splitSlash s.data).map List.asString

/-- Model of Python string slicing s[:n] (by code points). -/
def pyTake (s : String) (n : Nat) : String :=
  (s.data.take n).asString

/-- Model of Python string slicing s[n:] (by code points). -/
def pyDrop (s : String) (n : Nat) : String :=
  (s.data.drop n).asString

/-- Model of Python len on a string (code points). -/
def pyLen (s : String) : Nat :=
  s.data.length

/-- dvc_remote.is_dvc_hash_path: check whether a request path follows the
DVC hash pattern, by splitting on the slash exactly as the Python
file_path.split does. -/
def is_dvc_hash_path (file_path : String) : Bool :=
  let parts := pySplit file_path
  if parts.length ≥ 4 ∧ parts.getD 0 "" = "files" then
    if parts.getD 1 "" = "md5" ∨ parts.getD 1 "" = "sha256" then
      decide (parts.length = 4)
    else false
  else false

/-- dvc_remote.extract_hash_from_path: concatenate segment 2 and segment 3
of the request path; ValueError when fewer than 4 segments. -/
def extract_hash_from_path (file_path : String) : Except String String :=
  let parts := pySplit file_path
  if parts.length ≥ 4 then
    Except.ok (parts.getD 2 "" ++ parts.getD 3 "")
  else
    Except.error "Invalid DVC hash path format"

/-- dvc_remote.get_file_path_from_hash: HTTP 400 for hashes shorter than 2
characters, otherwise the sharded location files/md5/hash[:2]/hash[2:]
relative to the storage root (the algorithm segment is the literal string
md5 in the source). -/
def get_file_path_from_hash (file_hash : String) : Except HTTPError StorePath :=
  if pyLen file_hash < 2 then
    Except.error ⟨400, "Invalid file hash"⟩
  else
    Except.ok ["files", "md5", pyTake file_hash 2, pyDrop file_hash 2]

/-- data.get_dvc_file_path_from_hash: same derivation as the dvc_remote
variant, written in data.py with os.path.join. -/
def get_dvc_file_path_from_hash (file_hash : String) : Except HTTPError StorePath :=
  if pyLen file_hash < 2 then
    Except.error ⟨400, "Invalid file hash"⟩
  else
    Except.ok ["files", "md5", pyTake file_hash 2, pyDrop file_hash 2]

example : is_dvc_hash_path "files/md5/47/3eee96816e270cfcbc2813602413b9" = true := by decide

example : is_dvc_hash_path "files/md5/incomplete" = false := by rfl

example : is_dvc_hash_path "regular/file.txt" = false := by rfl

example : is_dvc_hash_path "files/sha256/ab/cdef123456789" = true := by rfl

example : extract_hash_from_path "files/md5/3d/c179.dir" = Except.ok "3dc179.dir" := by rfl

example : get_file_path_from_hash "473eee" = Except.ok ["files", "md5", "47", "3eee"] := by rfl

example : get_file_path_from_hash "a" = Except.error ⟨400, "Invalid file hash"⟩ := by rfl

/-- Lowercase a string, modeling the Python str.lower call used on the auth
scheme. -/
def pyLower (s : String) : String :=
  (s.data.map Char.toLower).asString

/-- Split a character list on spaces, dropping empty pieces, with the run
accumulated in the second argument; helper for pySplitWs. -/
def splitWsAux : List Char → List Char → List (List Char)
  | [], acc => if acc = [] then [] else [acc.reverse]
  | c :: rest, acc =>
    if c = ' ' then
      if acc = [] then splitWsAux rest []
      else acc.reverse :: splitWsAux rest []
    else splitWsAux rest (c :: acc)

/-- Model of the Python no-argument str.split used on the Authorization
header: split on whitespace runs, no empty tokens. -/
def pySplitWs (s : String) : List String :=
  (splitWsAux s.data []).map List.asString

/-- Split a character list at the first colon; helper for pySplitColon1. -/
def splitColon1 : List Char → Option (List Char × List Char)
  | [] => none
  | c :: rest =>
    if c = ':' then some ([], rest)
    else (splitColon1 rest).map (fun q => (c :: q.1, q.2))

/-- Model of the Python decoded.split with a colon and maxsplit 1 followed by
unpacking into two variables: none when the string has no colon (the unpack
raises ValueError). -/
def pySplitColon1 (s : String) : Option (String × String) :=
  (splitColon1 s.data).map (fun q => (q.1.asString, q.2.asString))

/-- A row of the users table as the auth gate reads it. -/
structure UserRec where
  id : Nat
  email : String
  hashed_password : String
  is_admin : Bool
deriving DecidableEq, Repr

/-- The resolved DVC remote auth configuration (config.py supplies the
defaults, so every field is already concrete here; get calls that can yield
Python None are Option). -/
structure AuthConfig where
  enabled : Bool
  method : String
  require_admin : Bool
  allowed_users : List String
  basic_username : Option String
  basic_password : Option String
  custom_token : Option String
deriving DecidableEq, Repr

/-- dvc_auth.is_user_allowed_for_dvc: admin requirement, then allowed-user
list (a nonempty list restricts, an empty one allows everyone). -/
def is_user_allowed_for_dvc (user : UserRec) (cfg : AuthConfig) : Bool :=
  if cfg.require_admin then user.is_admin
  else if cfg.allowed_users ≠ [] then cfg.allowed_users.contains user.email
  else true

/-- dvc_auth.verify_database_auth. The b64 parameter stands for the external
base64-then-utf8 decoding (none models a raised binascii or unicode error,
both ValueError subclasses); vp stands for the external bcrypt
verify_password. Every HTTPException raised inside the try block, including
the invalid-credentials 401 and the not-authorized 403, is caught by the
blanket except Exception clause of the source and replaced by the 401
Authentication failed error; only the ValueError paths keep the
invalid-format detail. -/
def verify_database_auth (b64 : String → Option String)
    (vp : String → String → Bool) (authorization : Option String)
    (db : List UserRec) (cfg : AuthConfig) : Except HTTPError UserRec :=
  match authorization with
  | none => Except.error ⟨401, "Authorization header required"⟩
  | some auth =>
    match pySplitWs auth with
    | [scheme, credentials] =>
      if pyLower scheme ≠ "basic" then
        Except.error ⟨401, "Authentication failed"⟩
      else
        match b64 credentials with
        | none => Except.error ⟨401, "Invalid authorization header format"⟩
        | some decoded =>
          match pySplitColon1 decoded with
          | none => Except.error ⟨401, "Invalid authorization header format"⟩
          | some (email, password) =>
            match db.find? (fun u => u.email = email) with
            | none => Except.error ⟨401, "Authentication failed"⟩
            | some user =>
              if ¬ vp password user.hashed_password then
                Except.error ⟨401, "Authentication failed"⟩
              else if ¬ is_user_allowed_for_dvc user cfg then
                Except.error ⟨401, "Authentication failed"⟩
              else
                Except.ok user
    | _ => Except.error ⟨401, "Invalid authorization header format"⟩

/-- dvc_auth.verify_basic_auth: compares the decoded credentials against the
configured shared secret and returns a boolean; never raises. -/
def verify_basic_auth (b64 : String → Option String)
    (authorization : Option String) (cfg : AuthConfig) : Bool :=
  match authorization with
  | none => false
  | some auth =>
    match pySplitWs auth with
    | [scheme, credentials] =>
      if pyLower scheme ≠ "basic" then false
      else
        match b64 credentials with
        | none => false
        | some decoded =>
          match pySplitColon1 decoded with
          | none => false
          | some (username, password) =>
            decide (some username = cfg.basic_username) &&
              decide (some password = cfg.basic_password)
    | _ => false

/-- dvc_auth.verify_custom_auth: compares the custom header token against the
configured token and returns a boolean; never raises. -/
def verify_custom_auth (x_dvc_token : Option String) (cfg : AuthConfig) : Bool :=
  match x_dvc_token with
  | none => false
  | some t => decide (some t = cfg.custom_token)

/-- dvc_auth.verify_dvc_auth: the gate the handlers call first. Note that in
the source the boolean results of verify_basic_auth and verify_custom_auth
are computed and then discarded (the function returns None regardless), which
the discarded let bindings below reproduce. -/
def verify_dvc_auth (b64 : String → Option String)
    (vp : String → String → Bool) (authorization x_dvc_token : Option String)
    (db : List UserRec) (cfg : AuthConfig) : Except HTTPError (Option UserRec) :=
  if ¬ cfg.enabled then
    Except.ok none
  else if cfg.method = "database" then
    (verify_database_auth b64 vp authorization db cfg).map some
  else if cfg.method = "basic" then
    let _ := verify_basic_auth b64 authorization cfg
    Except.ok none
  else if cfg.method = "custom" then
    let _ := verify_custom_auth x_dvc_token cfg
    Except.ok none
  else if cfg.method = "none" then
    Except.ok none
  else
    Except.error ⟨401, "Invalid authentication method"⟩

/-- A pathlib PurePath value: whether it is absolute plus its segments. -/
structure PyPath where
  absolute : Bool
  segs : List String
deriving DecidableEq, Repr

/-- One normalization step of path resolution: drop empty and dot segments,
let a dot-dot segment consume the previous one. -/
def normStep (acc : List String) (s : String) : List String :=
  if s = "" ∨ s = "." then acc
  else if s = ".." then acc.dropLast
  else acc ++ [s]

/-- Normalize a resolved segment list (no empty, dot or dot-dot segments
remain). -/
def normSegs (l : List String) : List String :=
  List.foldl normStep [] l

/-- True when the string starts with a slash, i.e. the Python Path is
absolute. -/
def startsWithSlash (s : String) : Bool :=
  match s.data with
  | c :: _ => c = '/'
  | [] => false

/-- Model of pathlib Path(file_path).resolve() as the handlers call it: a
relative path is interpreted against the process working directory, dot and
dot-dot segments are eliminated, and the result is always an absolute path
(symlinks are not modeled). -/
def pyResolve (cwd : List String) (file_path : String) : PyPath :=
  if startsWithSlash file_path then
    ⟨true, normSegs (pySplit file_path)⟩
  else
    ⟨true, normSegs (cwd ++ pySplit file_path)⟩

/-- Render a PyPath the way Python str does, for the dot-dot substring
check. -/
def pyPathStr (p : PyPath) : String :=
  (if p.absolute then "/" else "") ++ String.intercalate "/" p.segs

/-- Whether two consecutive dots occur anywhere in the string (Python
substring containment of dot-dot). -/
def charsHaveDotDot : List Char → Bool
  | [] => false
  | [_] => false
  | a :: b :: rest => (a = '.' && b = '.') || charsHaveDotDot (b :: rest)

/-- Python substring test for dot-dot on the rendered path. -/
def strContainsDotDot (s : String) : Bool :=
  charsHaveDotDot s.data

/-- The regular-file branch shared verbatim by the GET, PUT and HEAD handlers
of dvc_remote.py: resolve the request path, reject it with HTTP 400 when the
resolved path is absolute or its rendering contains dot-dot, otherwise hand
the resolved path on. -/
def resolve_regular_path (cwd : List String) (file_path : String) :
    Except HTTPError PyPath :=
  let safe_path := pyResolve cwd file_path
  if safe_path.absolute || strContainsDotDot (pyPathStr safe_path) then
    Except.error ⟨400, "Invalid file path"⟩
  else
    Except.ok safe_path

/-- dvc_remote.get_user_storage_path: a user-specific subtree keyed by the
first 8 hex digits of the md5 of the email; the md5hex parameter stands for
the external hashlib.md5 hexdigest. -/
def get_user_storage_path (md5hex : String → String) (user_email : String) :
    StorePath :=
  ["users", pyTake (md5hex user_email) 8]

/-- Pathlib join of the storage path with an already resolved path: joining
with an absolute right operand discards the left operand. -/
def pyJoin (base : StorePath) (p : PyPath) : StorePath :=
  if p.absolute then p.segs else base ++ p.segs

/-- The path-resolution phase shared by the GET, PUT and HEAD handlers of
dvc_remote.py: hash-addressed paths go through extract_hash_from_path (a
ValueError becomes HTTP 400) and get_file_path_from_hash; every other path
goes through the traversal check and is then joined under the per-user or
shared storage root. -/
def resolve_request_path (md5hex : String → String) (cwd : List String)
    (user : Option UserRec) (file_path : String) : Except HTTPError StorePath :=
  if is_dvc_hash_path file_path then
    match extract_hash_from_path file_path with
    | Except.error _ => Except.error ⟨400, "Invalid DVC hash path format"⟩
    | Except.ok file_hash => get_file_path_from_hash file_hash
  else
    match resolve_regular_path cwd file_path with
    | Except.error e => Except.error e
    | Except.ok safe_path =>
      match user with
      | some u => Except.ok (pyJoin (get_user_storage_path md5hex u.email) safe_path)
      | none => Except.ok (pyJoin [] safe_path)

/-- Final path component the way pathlib name computes it (empty segments
from repeated or trailing slashes are collapsed). -/
def pyBasename (s : String) : String :=
  ((pySplit s).filter (fun seg => seg ≠ "")).getLastD ""

/-- Model of pathlib suffix on the final component: the substring from the
last dot, provided that dot is neither the first nor the last character. -/
def pySuffix (s : String) : String :=
  let base := (pyBasename s).data
  let n := base.length
  let dotIdxs := (List.range n).filter (fun i => base.getD i ' ' = '.')
  match dotIdxs.getLast? with
  | some i => if 0 < i ∧ i < n - 1 then (base.drop i).asString else ""
  | none => ""

/-- Model of the Python str.lstrip with a dot argument: drop every leading
dot. -/
def pyLstripDot (s : String) : String :=
  (s.data.dropWhile (fun c => c = '.')).asString

/-- Whether a string ends with the given suffix (Python str.endswith). -/
def pyEndsWith (s suffx : String) : Bool :=
  suffx.data.isSuffixOf s.data

/-- Whether the rendered path ends in .dir, i.e. its final segment does. -/
def pathEndsWithDotDir (p : StorePath) : Bool :=
  pyEndsWith (p.getLastD "") ".dir"

/-- A DataItem row as created by the DVC upload path. -/
structure DataItem where
  name : String
  description : String
  source : String
  file_path : String
  hash : String
  file_size : Option Nat
  file_type : String
  is_folder : Bool
  file_count : Option Nat
  user_id : Nat
deriving DecidableEq, Repr

/-- The metadata dictionary assembled by extract_metadata_from_dvc_file. -/
structure DvcMeta where
  is_directory : Bool
  file_size : Option Nat
  file_count : Option Nat
deriving DecidableEq, Repr

/-- st_size of a stored blob for the raw-stat fallback; byte sizes of parsed
manifests are not tracked by the embedding and only feed catalog display
metadata. -/
def blobStatSize : Blob → Nat
  | Blob.bytes d => d.length
  | Blob.dirManifest _ => 0
  | Blob.yamlManifest _ => 0

/-- dvc_remote.extract_metadata_from_dvc_file: defaults unless the sidecar
exists and parses to a document with a nonempty outs list; nfiles defaults
to 1; the directory flag is set from the .dir filename suffix. Parse
failures are swallowed and yield the defaults. -/
def extract_metadata_from_dvc_file (fs : FS) (p : StorePath) : DvcMeta :=
  match fsLookup fs p with
  | some (Blob.yamlManifest (out1 :: _)) =>
    { is_directory := pathEndsWithDotDir p
      file_size := out1.size
      file_count := some (out1.nfiles.getD 1) }
  | _ => ⟨false, none, none⟩

/-- dvc_remote.extract_original_filename_from_dvc_file: the basename of the
path field of the first outs entry, when the sidecar parses and the field is
truthy; every failure yields none. -/
def extract_original_filename_from_dvc_file (fs : FS) (p : StorePath) :
    Option String :=
  match fsLookup fs p with
  | some (Blob.yamlManifest (out1 :: _)) =>
    match out1.path with
    | some op => if op = "" then none else some (pyBasename op)
    | none => none
  | _ => none

/-- dvc_remote.create_data_item_from_dvc_upload: assemble the DataItem row
and hand it to the database commit (the dbCommit parameter stands for the
external SQLAlchemy add-commit-refresh, which may fail). A falsy (empty)
original filename falls back to the hash-based name. -/
def create_data_item_from_dvc_upload (dbCommit : DataItem → Except String DataItem)
    (file_path file_hash : String) (user : UserRec) (is_directory : Bool)
    (file_size file_count : Option Nat) (original_filename : Option String) :
    Except String DataItem :=
  let fallback : String × String :=
    if is_directory then ("dvc_dir_" ++ pyTake file_hash 8, "directory")
    else ("dvc_file_" ++ pyTake file_hash 8, "unknown")
  let nt : String × String :=
    match original_filename with
    | some ofn =>
      if ofn = "" then fallback
      else
        let ft := pyLstripDot (pyLower (pySuffix ofn))
        (ofn, if ft = "" then "unknown" else ft)
    | none => fallback
  dbCommit
    { name := nt.1
      description := "Uploaded via DVC push"
      source := "DVC Remote"
      file_path := file_path
      hash := file_hash
      file_size := file_size
      file_type := nt.2
      is_folder := is_directory
      file_count := file_count
      user_id := user.id }

/-- dvc_remote.handle_dvc_upload_data_item_creation: look for a .dir or .dvc
sidecar beside the written file, fall back to a raw stat of the file itself,
then create the catalog row. The whole body sits in a try block whose except
clause logs and returns None, so a failing database commit (or a ValueError
from hash extraction) yields none instead of an error. -/
def handle_dvc_upload_data_item_creation (dbCommit : DataItem → Except String DataItem)
    (file_path : String) (full_path : StorePath) (fs : FS) (user : UserRec) :
    Option DataItem :=
  if is_dvc_hash_path file_path then
    match extract_hash_from_path file_path with
    | Except.error _ => none
    | Except.ok file_hash =>
      let base := full_path.getLastD ""
      let dvc_sidecar := full_path.dropLast ++ [base ++ ".dvc"]
      let dir_sidecar := full_path.dropLast ++ [base ++ ".dir"]
      let mo : DvcMeta × Option String :=
        if (fsLookup fs dir_sidecar).isSome then
          let m := extract_metadata_from_dvc_file fs dir_sidecar
          ({ m with is_directory := true },
            extract_original_filename_from_dvc_file fs dir_sidecar)
        else if (fsLookup fs dvc_sidecar).isSome then
          let m := extract_metadata_from_dvc_file fs dvc_sidecar
          ({ m with is_directory := false },
            extract_original_filename_from_dvc_file fs dvc_sidecar)
        else
          match fsLookup fs full_path with
          | some b => (⟨false, some (blobStatSize b), some 1⟩, none)
          | none => (⟨false, none, none⟩, none)
      match create_data_item_from_dvc_upload dbCommit file_path file_hash user
          mo.1.is_directory mo.1.file_size mo.1.file_count mo.2 with
      | Except.ok item => some item
      | Except.error _ => none
  else none

/-- Response body of a successful DVC upload. -/
structure DVCUploadResponse where
  status : String
  path : String
  user_email : Option String
deriving DecidableEq, Repr

/-- The write phase of upload_dvc_file at syscall granularity: the state
before the write, the state after open(full_path, wb) has created or
truncated the file at its final name, and the state after f.write put the
whole body there. The source writes directly to the final resolved path; no
temporary file and no rename appear in it. -/
def put_write_states (fs : FS) (p : StorePath) (content : Blob) : List FS :=
  [fs, fsSet fs p (Blob.bytes []), fsSet fs p content]

/-- dvc_remote.upload_dvc_file (the PUT handler): auth gate, path
resolution, parent creation plus direct write at the final path, then
best-effort catalog-row creation whose outcome (the third component) does
not influence the response. -/
def upload_dvc_file (md5hex : String → String) (b64 : String → Option String)
    (vp : String → String → Bool) (dbCommit : DataItem → Except String DataItem)
    (cfg : AuthConfig) (db : List UserRec)
    (authorization x_dvc_token : Option String) (cwd : List String)
    (file_path : String) (content : Blob) (fs : FS) :
    Except HTTPError (DVCUploadResponse × FS × Option DataItem) :=
  match verify_dvc_auth b64 vp authorization x_dvc_token db cfg with
  | Except.error e => Except.error e
  | Except.ok user =>
    match resolve_request_path md5hex cwd user file_path with
    | Except.error e => Except.error e
    | Except.ok full_path =>
      let fs1 := fsSet fs full_path content
      let created := match user with
        | some u => handle_dvc_upload_data_item_creation dbCommit file_path full_path fs1 u
        | none => none
      Except.ok (⟨"success", file_path, user.map (fun u => u.email)⟩, fs1, created)

/-- dvc_remote.post_dvc_file: the POST handler delegates to the PUT handler
unchanged. -/
def post_dvc_file (md5hex : String → String) (b64 : String → Option String)
    (vp : String → String → Bool) (dbCommit : DataItem → Except String DataItem)
    (cfg : AuthConfig) (db : List UserRec)
    (authorization x_dvc_token : Option String) (cwd : List String)
    (file_path : String) (content : Blob) (fs : FS) :
    Except HTTPError (DVCUploadResponse × FS × Option DataItem) :=
  upload_dvc_file md5hex b64 vp dbCommit cfg db authorization x_dvc_token cwd
    file_path content fs

/-- A response of the download endpoints: a plain file stream or a zip
archive given by its entries. -/
inductive DownloadResponse where
  | fileResponse (path : StorePath) (filename : String) (content : Blob)
  | zipResponse (filename : String) (entries : List (String × Blob))
deriving DecidableEq, Repr

/-- dvc_remote.get_dvc_file (the GET handler): auth gate, path resolution,
then a FileResponse streaming the stored content as-is, whatever it is; 404
when the resolved path holds nothing. -/
def get_dvc_file (md5hex : String → String) (b64 : String → Option String)
    (vp : String → String → Bool) (cfg : AuthConfig) (db : List UserRec)
    (authorization x_dvc_token : Option String) (cwd : List String)
    (file_path : String) (fs : FS) : Except HTTPError DownloadResponse :=
  match verify_dvc_auth b64 vp authorization x_dvc_token db cfg with
  | Except.error e => Except.error e
  | Except.ok user =>
    match resolve_request_path md5hex cwd user file_path with
    | Except.error e => Except.error e
    | Except.ok full_path =>
      match fsLookup fs full_path with
      | none => Except.error ⟨404, "File not found"⟩
      | some b =>
        Except.ok (DownloadResponse.fileResponse full_path (full_path.getLastD "") b)

/-- data.read_dir_metadata: json.load of the stored .dir manifest; a missing
file or non-JSON content raises and is mapped to HTTP 404. -/
def read_dir_metadata (fs : FS) (p : StorePath) : Except HTTPError (List DirEntry) :=
  match fsLookup fs p with
  | some (Blob.dirManifest entries) => Except.ok entries
  | some _ => Except.error ⟨404, "Cannot read folder metadata"⟩
  | none => Except.error ⟨404, "Cannot read folder metadata"⟩

/-- data.create_folder_zip: walk the manifest members in order; each member
whose hash resolves to an existing blob is added to the zip under its
relpath; a member whose blob is missing only prints a warning, and an
exception while processing a member (such as the too-short-hash
HTTPException from path derivation) is caught and the loop continues. The
function always returns the zip it built. zip_step is one iteration of its
loop. -/
def zip_step (fs : FS) (acc : List (String × Blob)) (e : DirEntry) :
    List (String × Blob) :=
  match get_dvc_file_path_from_hash e.md5 with
  | Except.error _ => acc
  | Except.ok p =>
    match fsLookup fs p with
    | some b => acc ++ [(e.relpath, b)]
    | none => acc

/-- Loop of data.create_folder_zip over the manifest members, zip_step being
the loop body. -/
def create_folder_zip (fs : FS) (file_list : List DirEntry) :
    List (String × Blob) :=
  List.foldl (zip_step fs) [] file_list

/-- The blob a manifest member resolves to, when its hash derives a path and
a blob is stored there; used to state which members are resolvable. -/
def memberBlob (fs : FS) (e : DirEntry) : Option Blob :=
  match get_dvc_file_path_from_hash e.md5 with
  | Except.ok p => fsLookup fs p
  | Except.error _ => none

/-- A DataItem row as the download endpoint reads it (nullable hash
column). -/
structure DataItemRow where
  id : Nat
  name : String
  hash : Option String
  is_folder : Bool
deriving DecidableEq, Repr

/-- data.download_data_file: look the item up by id, then either build a zip
from the stored directory manifest (when the item is a folder and its hash
ends in .dir) or stream the single blob; a null or empty hash is falsy and
yields 404. -/
def download_data_file (dbItems : List DataItemRow) (fs : FS) (item_id : Nat) :
    Except HTTPError DownloadResponse :=
  match dbItems.find? (fun r => r.id = item_id) with
  | none => Except.error ⟨404, "Data item not found"⟩
  | some item =>
    match item.hash with
    | none => Except.error ⟨404, "File hash not found"⟩
    | some h =>
      if h = "" then Except.error ⟨404, "File hash not found"⟩
      else if item.is_folder && pyEndsWith h ".dir" then
        match get_dvc_file_path_from_hash h with
        | Except.error e => Except.error e
        | Except.ok dir_file_path =>
          if (fsLookup fs dir_file_path).isNone then
            Except.error ⟨404, "Folder metadata not found in DVC storage"⟩
          else
            match read_dir_metadata fs dir_file_path with
            | Except.error e => Except.error e
            | Except.ok file_list =>
              Except.ok (DownloadResponse.zipResponse (item.name ++ ".zip")
                (create_folder_zip fs file_list))
      else
        if pyLen h < 2 then Except.error ⟨400, "Invalid file hash"⟩
        else
          match get_dvc_file_path_from_hash h with
          | Except.error e => Except.error e
          | Except.ok dvc_file_path =>
            match fsLookup fs dvc_file_path with
            | none => Except.error ⟨404, "File not found in DVC storage"⟩
            | some b => Except.ok (DownloadResponse.fileResponse dvc_file_path item.name b)

/-- An auth configuration with the gate disabled: the one configuration in
which the source explicitly allows anonymous access. -/
def authDisabledCfg : AuthConfig :=
  ⟨false, "database", false, [], none, none, none⟩

/-- A basic shared-secret auth configuration with the gate enabled. -/
def basicAuthCfg : AuthConfig :=
  ⟨true, "basic", false, [], some "dvc_user", some "dvc_password", none⟩

/-- A custom header-token auth configuration with the gate enabled. -/
def customAuthCfg : AuthConfig :=
  ⟨true, "custom", false, [], none, none, some "secret"⟩

/-- A trivial stand-in for the external md5 hexdigest (only dead code paths
consume it in the handlers). -/
def md5hex0 : String → String := fun _ => ""

/-- A base64 decoder stand-in that always fails. -/
def b64None : String → Option String := fun _ => none

/-- A bcrypt stand-in that rejects every password. -/
def vpFalse : String → String → Bool := fun _ _ => false

/-- A database commit stand-in that always succeeds. -/
def okCommit : DataItem → Except String DataItem := fun it => Except.ok it

/-- A database commit stand-in that always fails. -/
def failCommit : DataItem → Except String DataItem := fun _ => Except.error "db down"

example : upload_dvc_file md5hex0 b64None vpFalse okCommit authDisabledCfg []
    none none [] "files/md5/ab/cdef" (Blob.bytes [104]) []
    = Except.ok (⟨"success", "files/md5/ab/cdef", none⟩,
        [(["files", "md5", "ab", "cdef"], Blob.bytes [104])], none) := by decide

example : get_dvc_file md5hex0 b64None vpFalse authDisabledCfg [] none none []
    "files/md5/ab/cd.dir"
    [(["files", "md5", "ab", "cd.dir"], Blob.dirManifest [⟨"aabbcc", "x.txt"⟩])]
    = Except.ok (DownloadResponse.fileResponse ["files", "md5", "ab", "cd.dir"]
        "cd.dir" (Blob.dirManifest [⟨"aabbcc", "x.txt"⟩])) := by decide

example : download_data_file [⟨1, "data", some "3dc179.dir", true⟩]
    [(["files", "md5", "3d", "c179.dir"], Blob.dirManifest [⟨"deadbeef", "a.txt"⟩])] 1
    = Except.ok (DownloadResponse.zipResponse "data.zip" []) := by decide

example : resolve_request_path md5hex0 [] none "regular/file.txt"
    = Except.error ⟨400, "Invalid file path"⟩ := by decide

example : resolve_request_path md5hex0 ["opt", "app"] none "files/sha256/ab/cdef"
    = Except.ok ["files", "md5", "ab", "cdef"] := by decide

theorem resolve_regular_path_err (cwd : List String) (file_path : String) :
    resolve_regular_path cwd file_path = Except.error ⟨400, "Invalid file path"⟩ := by
  unfold resolve_regular_path pyResolve
  by_cases h : startsWithSlash file_path = true <;> simp [h]

/-- C10: a path is classified as hash-addressed iff it splits into exactly 4
slash segments whose segment 0 is files and whose segment 1 is md5 or
sha256; the spec examples fall as stated. -/
theorem c10_hash_path_classification :
    (∀ p : String, is_dvc_hash_path p = true ↔
      ((pySplit p).length = 4 ∧ (pySplit p).getD 0 "" = "files" ∧
        ((pySplit p).getD 1 "" = "md5" ∨ (pySplit p).getD 1 "" = "sha256"))) ∧
    is_dvc_hash_path "files/md5/47/3eee96816e270cfcbc2813602413b9" = true ∧
    is_dvc_hash_path "files/md5/incomplete" = false ∧
    is_dvc_hash_path "regular/file.txt" = false := by
  refine ⟨fun p => ?_, by decide, by decide, by decide⟩
  simp only [is_dvc_hash_path]
  split_ifs with h1 h2
  · simp only [decide_eq_true_eq]
    constructor
    · intro hl
      exact ⟨hl, h1.2, h2⟩
    · intro hr
      exact hr.1
  · simp only [Bool.false_eq_true, false_iff]
    intro hr
    exact h2 hr.2.2
  · simp only [Bool.false_eq_true, false_iff]
    intro hr
    obtain ⟨hlen, hfiles, _⟩ := hr
    exact h1 ⟨by omega, hfiles⟩

/-- C5, counterexample: a sha256-addressed request path is accepted by the
classifier but resolves into the md5 namespace, not the sha256 one the
claim requires. -/
theorem c5_counterexample :
    is_dvc_hash_path "files/sha256/ab/cdef" = true ∧
    resolve_request_path md5hex0 ["opt", "app"] none "files/sha256/ab/cdef"
      = Except.ok ["files", "md5", "ab", "cdef"] ∧
    (["files", "md5", "ab", "cdef"] : StorePath) ≠ ["files", "sha256", "ab", "cdef"] := by
  decide

/-- C5 (amended): for every hash of length at least 2, both resolvers yield
the location files/md5/hash[:2]/hash[2:] under the storage root, whatever
algorithm namespace the request named; shorter hashes fail with the
HTTP 400 invalid-hash error. -/
theorem c5_resolution_md5_only (h : String) :
    (2 ≤ pyLen h →
      get_file_path_from_hash h = Except.ok ["files", "md5", pyTake h 2, pyDrop h 2] ∧
      get_dvc_file_path_from_hash h = Except.ok ["files", "md5", pyTake h 2, pyDrop h 2]) ∧
    (pyLen h < 2 →
      get_file_path_from_hash h = Except.error ⟨400, "Invalid file hash"⟩ ∧
      get_dvc_file_path_from_hash h = Except.error ⟨400, "Invalid file hash"⟩) := by
  constructor <;> intro hl <;>
    simp [get_file_path_from_hash, get_dvc_file_path_from_hash] <;> omega

theorem c5_resolution_md5_only_witness :
    (2 ≤ pyLen "473eee" ∧
      get_file_path_from_hash "473eee" = Except.ok ["files", "md5", "47", "3eee"] ∧
      get_dvc_file_path_from_hash "473eee" = Except.ok ["files", "md5", "47", "3eee"]) ∧
    (pyLen "a" < 2 ∧
      get_file_path_from_hash "a" = Except.error ⟨400, "Invalid file hash"⟩ ∧
      get_dvc_file_path_from_hash "a" = Except.error ⟨400, "Invalid file hash"⟩) :=
  ⟨⟨by decide, (c5_resolution_md5_only "473eee").1 (by decide)⟩,
    ⟨by decide, (c5_resolution_md5_only "a").2 (by decide)⟩⟩

/-- C3: the traversal check of the regular-path branch rejects every request
path, not only traversal attempts: Path.resolve always yields an absolute
path, so the is-absolute disjunct of the rejection condition always fires
and every non-hash-addressed path is answered with HTTP 400, including the
well-formed traversal-free path regular/file.txt. -/
theorem c3_regular_paths_all_rejected :
    (∀ cwd file_path, resolve_regular_path cwd file_path
        = Except.error ⟨400, "Invalid file path"⟩) ∧
    (∀ (md5hex : String → String) cwd user file_path,
      is_dvc_hash_path file_path = false →
      resolve_request_path md5hex cwd user file_path
        = Except.error ⟨400, "Invalid file path"⟩) ∧
    resolve_request_path md5hex0 ["opt", "app"] none "regular/file.txt"
      = Except.error ⟨400, "Invalid file path"⟩ := by
  refine ⟨resolve_regular_path_err, fun md5hex cwd user file_path hf => ?_, by decide⟩
  unfold resolve_request_path
  rw [hf]
  simp [resolve_regular_path_err]

theorem c3_regular_paths_all_rejected_witness :
    is_dvc_hash_path "regular/file.txt" = false ∧
    resolve_request_path md5hex0 ["srv"] none "regular/file.txt"
      = Except.error ⟨400, "Invalid file path"⟩ :=
  ⟨by decide, c3_regular_paths_all_rejected.2.1 md5hex0 ["srv"] none "regular/file.txt" (by decide)⟩

/-- C4: with authentication enabled under the basic method and no
credentials supplied, verify_basic_auth evaluates to false but the gate
discards that result and lets the request through as anonymous, and the PUT
handler then performs the blob write; likewise under the custom method with
a wrong token. The claim that absent or failing credentials always yield
401 with no blob I/O therefore fails in the code. -/
theorem c4_ignored_auth_failure_reaches_blob_io :
    verify_basic_auth b64None none basicAuthCfg = false ∧
    verify_dvc_auth b64None vpFalse none none [] basicAuthCfg = Except.ok none ∧
    verify_custom_auth (some "wrong") customAuthCfg = false ∧
    verify_dvc_auth b64None vpFalse none (some "wrong") [] customAuthCfg = Except.ok none ∧
    upload_dvc_file md5hex0 b64None vpFalse okCommit basicAuthCfg []
        none none [] "files/md5/ab/cdef" (Blob.bytes [104]) []
      = Except.ok (⟨"success", "files/md5/ab/cdef", none⟩,
          [(["files", "md5", "ab", "cdef"], Blob.bytes [104])], none) ∧
    fsLookup [(["files", "md5", "ab", "cdef"], Blob.bytes [104])]
        ["files", "md5", "ab", "cdef"] = some (Blob.bytes [104]) := by
  decide

/-- C1, counterexample: in the write trace of a put there is an intermediate
state in which the final path exists but does not hold the complete content
(the state right after open has truncated the file at its final name), so
it is false that the final path is always absent or complete. -/
theorem c1_counterexample :
    ¬ (∀ s ∈ put_write_states [] ["files", "md5", "ab", "cd"] (Blob.bytes [1]),
        fsLookup s ["files", "md5", "ab", "cd"] = none ∨
        fsLookup s ["files", "md5", "ab", "cd"] = some (Blob.bytes [1])) := by
  decide

/-- C1 (amended): the upload writes the body directly at the final resolved
path, with no temporary file and no rename: the write trace ends in the
state holding the complete content, but for any non-empty body it passes
through a state in which the final path already exists holding the
truncated (empty) file, which a concurrent reader can observe. -/
theorem c1_put_writes_directly (fs : FS) (p : StorePath) (c : Blob)
    (hc : c ≠ Blob.bytes []) :
    (put_write_states fs p c).getLast? = some (fsSet fs p c) ∧
    fsLookup (fsSet fs p c) p = some c ∧
    ∃ s ∈ put_write_states fs p c,
      fsLookup s p = some (Blob.bytes []) ∧ fsLookup s p ≠ some c := by
  have hmid : fsLookup (fsSet fs p (Blob.bytes [])) p = some (Blob.bytes []) := by
    simp [fsLookup, fsSet]
  refine ⟨rfl, by simp [fsLookup, fsSet], ?_⟩
  refine ⟨fsSet fs p (Blob.bytes []), by simp [put_write_states], hmid, ?_⟩
  rw [hmid]
  intro hEq
  exact hc (Option.some.inj hEq).symm

theorem c1_put_writes_directly_witness :
    (Blob.bytes [1] ≠ Blob.bytes []) ∧
    ((put_write_states [] ["a"] (Blob.bytes [1])).getLast?
        = some (fsSet [] ["a"] (Blob.bytes [1])) ∧
      fsLookup (fsSet [] ["a"] (Blob.bytes [1])) ["a"] = some (Blob.bytes [1]) ∧
      ∃ s ∈ put_write_states [] ["a"] (Blob.bytes [1]),
        fsLookup s ["a"] = some (Blob.bytes []) ∧
        fsLookup s ["a"] ≠ some (Blob.bytes [1])) :=
  ⟨by decide, c1_put_writes_directly [] ["a"] (Blob.bytes [1]) (by decide)⟩

/-- C6, counterexample: a put to a hash whose blob already exists does not
leave the stored bytes unchanged: uploading a different body to the same
hash-addressed path replaces the old content. -/
theorem c6_counterexample :
    fsLookup [(["files", "md5", "ab", "cdef"], Blob.bytes [1])]
        ["files", "md5", "ab", "cdef"] = some (Blob.bytes [1]) ∧
    upload_dvc_file md5hex0 b64None vpFalse okCommit authDisabledCfg [] none none []
        "files/md5/ab/cdef" (Blob.bytes [2])
        [(["files", "md5", "ab", "cdef"], Blob.bytes [1])]
      = Except.ok (⟨"success", "files/md5/ab/cdef", none⟩,
          [(["files", "md5", "ab", "cdef"], Blob.bytes [2]),
            (["files", "md5", "ab", "cdef"], Blob.bytes [1])], none) ∧
    fsLookup [(["files", "md5", "ab", "cdef"], Blob.bytes [2]),
        (["files", "md5", "ab", "cdef"], Blob.bytes [1])]
        ["files", "md5", "ab", "cdef"] = some (Blob.bytes [2]) ∧
    (some (Blob.bytes [2]) : Option Blob) ≠ some (Blob.bytes [1]) := by
  decide

/-- C6 (amended): a successful put unconditionally overwrites the resolved
path with the uploaded body (open in write mode truncates and rewrites):
afterwards the path holds the new body, and previously stored different
bytes are gone; content is preserved only when the new body is
byte-identical. -/
theorem c6_put_overwrites (md5hex : String → String) (b64 : String → Option String)
    (vp : String → String → Bool) (dbc : DataItem → Except String DataItem)
    (cfg : AuthConfig) (db : List UserRec) (auth tok : Option String)
    (cwd : List String) (fp : String) (c : Blob) (fs : FS)
    (r : DVCUploadResponse) (fs' : FS) (cr : Option DataItem)
    (h : upload_dvc_file md5hex b64 vp dbc cfg db auth tok cwd fp c fs
      = Except.ok (r, fs', cr)) :
    ∃ full_path, fs' = fsSet fs full_path c ∧
      fsLookup fs' full_path = some c ∧
      ∀ prev, fsLookup fs full_path = some prev → prev ≠ c →
        fsLookup fs' full_path ≠ some prev := by
  unfold upload_dvc_file at h
  revert h
  cases hv : verify_dvc_auth b64 vp auth tok db cfg with
  | error e => intro h; simp at h
  | ok user =>
    intro h
    dsimp only at h
    cases hr : resolve_request_path md5hex cwd user fp with
    | error e => rw [hr] at h; simp at h
    | ok full_path =>
      rw [hr] at h
      simp only [Except.ok.injEq, Prod.mk.injEq] at h
      obtain ⟨-, hfs, -⟩ := h
      refine ⟨full_path, hfs.symm, ?_, ?_⟩
      · rw [← hfs]
        simp [fsLookup, fsSet]
      · intro prev hprev hne
        rw [← hfs]
        have : fsLookup (fsSet fs full_path c) full_path = some c := by
          simp [fsLookup, fsSet]
        rw [this]
        intro hEq
        exact hne (Option.some.inj hEq).symm

theorem c6_put_overwrites_witness :
    ∃ full_path,
      [(["files", "md5", "ab", "cdef"], Blob.bytes [7]),
        (["files", "md5", "ab", "cdef"], Blob.bytes [5])]
        = fsSet [(["files", "md5", "ab", "cdef"], Blob.bytes [5])] full_path (Blob.bytes [7]) ∧
      fsLookup [(["files", "md5", "ab", "cdef"], Blob.bytes [7]),
          (["files", "md5", "ab", "cdef"], Blob.bytes [5])] full_path = some (Blob.bytes [7]) ∧
      ∀ prev, fsLookup [(["files", "md5", "ab", "cdef"], Blob.bytes [5])] full_path = some prev →
        prev ≠ Blob.bytes [7] →
        fsLookup [(["files", "md5", "ab", "cdef"], Blob.bytes [7]),
          (["files", "md5", "ab", "cdef"], Blob.bytes [5])] full_path ≠ some prev :=
  c6_put_overwrites md5hex0 b64None vpFalse okCommit authDisabledCfg [] none none []
    "files/md5/ab/cdef" (Blob.bytes [7])
    [(["files", "md5", "ab", "cdef"], Blob.bytes [5])]
    ⟨"success", "files/md5/ab/cdef", none⟩
    [(["files", "md5", "ab", "cdef"], Blob.bytes [7]),
      (["files", "md5", "ab", "cdef"], Blob.bytes [5])] none (by decide)

theorem zip_step_eq (fs : FS) (acc : List (String × Blob)) (e : DirEntry) :
    zip_step fs acc e
      = acc ++ ((memberBlob fs e).map (fun b => (e.relpath, b))).toList := by
  unfold zip_step memberBlob
  cases hp : get_dvc_file_path_from_hash e.md5 with
  | error err => simp
  | ok p => cases hb : fsLookup fs p <;> simp [hb]

theorem create_folder_zip_aux (fs : FS) (l : List DirEntry) (acc : List (String × Blob)) :
    List.foldl (zip_step fs) acc l
    = acc ++ l.filterMap (fun e => (memberBlob fs e).map (fun b => (e.relpath, b))) := by
  induction l generalizing acc with
  | nil => simp
  | cons e rest ih =>
    rw [List.foldl_cons, List.filterMap_cons, zip_step_eq, ih]
    cases hmb : memberBlob fs e <;> simp

theorem create_folder_zip_eq (fs : FS) (l : List DirEntry) :
    create_folder_zip fs l
      = l.filterMap (fun e => (memberBlob fs e).map (fun b => (e.relpath, b))) := by
  unfold create_folder_zip
  rw [create_folder_zip_aux]
  simp

/-- C8: building the zip always succeeds and its entries are exactly the
manifest members whose hashes resolve to an existing blob, in manifest
order, each stored under its declared relative path; unresolvable members
are skipped without aborting. The spec scenario with 3 members of which 1
is missing yields exactly the 2 resolvable members. -/
theorem c8_archive_exact_members :
    (∀ fs l, create_folder_zip fs l
        = l.filterMap (fun e => (memberBlob fs e).map (fun b => (e.relpath, b)))) ∧
    create_folder_zip
        [(["files", "md5", "aa", "11"], Blob.bytes [1]),
          (["files", "md5", "cc", "33"], Blob.bytes [3])]
        [⟨"aa11", "sub/a.txt"⟩, ⟨"bb22", "b.txt"⟩, ⟨"cc33", "c.txt"⟩]
      = [("sub/a.txt", Blob.bytes [1]), ("c.txt", Blob.bytes [3])] :=
  ⟨create_folder_zip_eq, by decide⟩

theorem download_folder_zip (dbItems : List DataItemRow) (fs : FS) (item_id : Nat)
    (item : DataItemRow) (h : String) (dirPath : StorePath) (entries : List DirEntry)
    (hfind : dbItems.find? (fun x => x.id = item_id) = some item)
    (hh : item.hash = some h) (hne : h ≠ "")
    (hfold : item.is_folder = true) (hdir : pyEndsWith h ".dir" = true)
    (hres : get_dvc_file_path_from_hash h = Except.ok dirPath)
    (hman : fsLookup fs dirPath = some (Blob.dirManifest entries)) :
    download_data_file dbItems fs item_id
      = Except.ok (DownloadResponse.zipResponse (item.name ++ ".zip")
          (create_folder_zip fs entries)) := by
  unfold download_data_file
  simp only [hfind, hh, hfold, hdir, hres, hman, read_dir_metadata]
  simp [hne]

/-- C7, counterexample: a folder whose manifest has a single member whose
blob is missing downloads successfully as an archive with no entries; the
build does not fail with any EmptyArchive error. -/
theorem c7_counterexample :
    download_data_file [⟨1, "data", some "3dc179.dir", true⟩]
        [(["files", "md5", "3d", "c179.dir"], Blob.dirManifest [⟨"deadbeef", "a.txt"⟩])] 1
      = Except.ok (DownloadResponse.zipResponse "data.zip" []) ∧
    create_folder_zip
        [(["files", "md5", "3d", "c179.dir"], Blob.dirManifest [⟨"deadbeef", "a.txt"⟩])]
        [⟨"deadbeef", "a.txt"⟩] = [] := by
  decide

/-- C7 (amended): when zero manifest members resolve to an existing blob,
the build still succeeds: create_folder_zip returns the empty entry list
and the folder download responds with a zip archive containing no entries
instead of failing. -/
theorem c7_empty_archive_returned :
    (∀ fs l, (∀ e ∈ l, memberBlob fs e = none) → create_folder_zip fs l = []) ∧
    (∀ dbItems fs item_id item h dirPath entries,
      dbItems.find? (fun x => x.id = item_id) = some item →
      item.hash = some h → h ≠ "" → item.is_folder = true →
      pyEndsWith h ".dir" = true →
      get_dvc_file_path_from_hash h = Except.ok dirPath →
      fsLookup fs dirPath = some (Blob.dirManifest entries) →
      (∀ e ∈ entries, memberBlob fs e = none) →
      download_data_file dbItems fs item_id
        = Except.ok (DownloadResponse.zipResponse (item.name ++ ".zip") [])) := by
  have hempty : ∀ (fs : FS) (l : List DirEntry),
      (∀ e ∈ l, memberBlob fs e = none) → create_folder_zip fs l = [] := by
    intro fs l hnone
    rw [create_folder_zip_eq]
    rw [List.filterMap_eq_nil_iff]
    intro e he
    rw [hnone e he]
    rfl
  refine ⟨hempty, ?_⟩
  intro dbItems fs item_id item h dirPath entries hfind hh hne hfold hdir hres hman hnone
  rw [download_folder_zip dbItems fs item_id item h dirPath entries hfind hh hne hfold hdir hres hman]
  rw [hempty fs entries hnone]

theorem c7_empty_archive_returned_witness :
    download_data_file [⟨2, "folder2", some "aa11.dir", true⟩]
        [(["files", "md5", "aa", "11.dir"], Blob.dirManifest [⟨"ffff", "z.txt"⟩])] 2
      = Except.ok (DownloadResponse.zipResponse "folder2.zip" []) :=
  c7_empty_archive_returned.2 [⟨2, "folder2", some "aa11.dir", true⟩]
    [(["files", "md5", "aa", "11.dir"], Blob.dirManifest [⟨"ffff", "z.txt"⟩])] 2
    ⟨2, "folder2", some "aa11.dir", true⟩ "aa11.dir" ["files", "md5", "aa", "11.dir"]
    [⟨"ffff", "z.txt"⟩] (by decide) (by decide) (by decide) (by decide) (by decide)
    (by decide) (by decide) (by decide)

theorem extract_hash_of_hash_path {fp : String} (h1 : is_dvc_hash_path fp = true) :
    extract_hash_from_path fp
      = Except.ok ((pySplit fp).getD 2 "" ++ (pySplit fp).getD 3 "") := by
  unfold is_dvc_hash_path at h1
  unfold extract_hash_from_path
  dsimp only at h1 ⊢
  split_ifs at h1 with ha hb
  rw [if_pos ha.1]

/-- C2, counterexample: a GET on a hash-addressed path whose final segment
carries the .dir suffix answers with the raw stored manifest streamed
as a plain file, not with any constructed archive. -/
theorem c2_counterexample :
    get_dvc_file md5hex0 b64None vpFalse authDisabledCfg [] none none []
        "files/md5/ab/cd.dir"
        [(["files", "md5", "ab", "cd.dir"], Blob.dirManifest [⟨"aabbcc", "x.txt"⟩])]
      = Except.ok (DownloadResponse.fileResponse ["files", "md5", "ab", "cd.dir"]
          "cd.dir" (Blob.dirManifest [⟨"aabbcc", "x.txt"⟩])) ∧
    ¬ ∃ fn entries,
      get_dvc_file md5hex0 b64None vpFalse authDisabledCfg [] none none []
          "files/md5/ab/cd.dir"
          [(["files", "md5", "ab", "cd.dir"], Blob.dirManifest [⟨"aabbcc", "x.txt"⟩])]
        = Except.ok (DownloadResponse.zipResponse fn entries) := by
  have h1 : get_dvc_file md5hex0 b64None vpFalse authDisabledCfg [] none none []
      "files/md5/ab/cd.dir"
      [(["files", "md5", "ab", "cd.dir"], Blob.dirManifest [⟨"aabbcc", "x.txt"⟩])]
    = Except.ok (DownloadResponse.fileResponse ["files", "md5", "ab", "cd.dir"]
        "cd.dir" (Blob.dirManifest [⟨"aabbcc", "x.txt"⟩])) := by decide
  refine ⟨h1, ?_⟩
  rintro ⟨fn, entries, hEq⟩
  rw [h1] at hEq
  simp at hEq

/-- C2 (amended): the wire GET endpoint never constructs archives: every
successful GET streams some stored blob raw, .dir manifests included;
archive construction lives only in the catalog download endpoint, where a
folder item whose hash ends in .dir has its stored manifest decoded and a
zip of the resolvable members built and returned. -/
theorem c2_get_raw_archive_in_catalog_only :
    (∀ md5hex b64 vp cfg db auth tok cwd fp fs r,
      get_dvc_file md5hex b64 vp cfg db auth tok cwd fp fs = Except.ok r →
      ∃ p b, fsLookup fs p = some b ∧
        r = DownloadResponse.fileResponse p (p.getLastD "") b) ∧
    (∀ dbItems fs item_id item h dirPath entries,
      dbItems.find? (fun x => x.id = item_id) = some item →
      item.hash = some h → h ≠ "" → item.is_folder = true →
      pyEndsWith h ".dir" = true →
      get_dvc_file_path_from_hash h = Except.ok dirPath →
      fsLookup fs dirPath = some (Blob.dirManifest entries) →
      download_data_file dbItems fs item_id
        = Except.ok (DownloadResponse.zipResponse (item.name ++ ".zip")
            (entries.filterMap (fun e => (memberBlob fs e).map (fun b => (e.relpath, b)))))) := by
  constructor
  · intro md5hex b64 vp cfg db auth tok cwd fp fs r h
    unfold get_dvc_file at h
    revert h
    cases hv : verify_dvc_auth b64 vp auth tok db cfg with
    | error e => intro h; simp at h
    | ok user =>
      intro h
      dsimp only at h
      cases hr : resolve_request_path md5hex cwd user fp with
      | error e => rw [hr] at h; simp at h
      | ok full_path =>
        rw [hr] at h
        dsimp only at h
        cases hb : fsLookup fs full_path with
        | none => rw [hb] at h; simp at h
        | some b =>
          rw [hb] at h
          simp only [Except.ok.injEq] at h
          exact ⟨full_path, b, hb, h.symm⟩
  · intro dbItems fs item_id item h dirPath entries hfind hh hne hfold hdir hres hman
    rw [download_folder_zip dbItems fs item_id item h dirPath entries hfind hh hne
      hfold hdir hres hman]
    rw [create_folder_zip_eq]

theorem c2_get_raw_archive_in_catalog_only_witness :
    (∃ p b,
      fsLookup [(["files", "md5", "ee", "ff.dir"], Blob.dirManifest [⟨"cc22", "m.txt"⟩])] p
          = some b ∧
      DownloadResponse.fileResponse ["files", "md5", "ee", "ff.dir"] "ff.dir"
          (Blob.dirManifest [⟨"cc22", "m.txt"⟩])
        = DownloadResponse.fileResponse p (p.getLastD "") b) ∧
    download_data_file [⟨3, "f3", some "eeff.dir", true⟩]
        [(["files", "md5", "ee", "ff.dir"], Blob.dirManifest [⟨"cc22", "m.txt"⟩]),
          (["files", "md5", "cc", "22"], Blob.bytes [5])] 3
      = Except.ok (DownloadResponse.zipResponse "f3.zip"
          ([(⟨"cc22", "m.txt"⟩ : DirEntry)].filterMap
            (fun e => (memberBlob
              [(["files", "md5", "ee", "ff.dir"], Blob.dirManifest [⟨"cc22", "m.txt"⟩]),
                (["files", "md5", "cc", "22"], Blob.bytes [5])] e).map
              (fun b => (e.relpath, b))))) :=
  ⟨c2_get_raw_archive_in_catalog_only.1 md5hex0 b64None vpFalse authDisabledCfg []
      none none [] "files/md5/ee/ff.dir"
      [(["files", "md5", "ee", "ff.dir"], Blob.dirManifest [⟨"cc22", "m.txt"⟩])]
      (DownloadResponse.fileResponse ["files", "md5", "ee", "ff.dir"] "ff.dir"
        (Blob.dirManifest [⟨"cc22", "m.txt"⟩])) (by decide),
    c2_get_raw_archive_in_catalog_only.2 [⟨3, "f3", some "eeff.dir", true⟩]
      [(["files", "md5", "ee", "ff.dir"], Blob.dirManifest [⟨"cc22", "m.txt"⟩]),
        (["files", "md5", "cc", "22"], Blob.bytes [5])] 3
      ⟨3, "f3", some "eeff.dir", true⟩ "eeff.dir" ["files", "md5", "ee", "ff.dir"]
      [⟨"cc22", "m.txt"⟩] (by decide) (by decide) (by decide) (by decide) (by decide)
      (by decide) (by decide)⟩

/-- C9: cataloging is advisory. The response and the resulting filesystem of
a PUT are identical under any two database-commit behaviors; every
successful PUT responds with the success status; a failing commit inside
catalog-record creation is swallowed (the function yields none, it never
propagates an error); and with no sidecar manifest the creation falls back
to a raw stat of the written file and still produces a record. -/
theorem c9_catalog_advisory :
    (∀ (md5hex : String → String) (b64 : String → Option String)
        (vp : String → String → Bool) (A B : DataItem → Except String DataItem)
        (cfg : AuthConfig) (db : List UserRec) (auth tok : Option String)
        (cwd : List String) (fp : String) (c : Blob) (fs : FS),
      (upload_dvc_file md5hex b64 vp A cfg db auth tok cwd fp c fs).map
          (fun t => (t.1, t.2.1))
        = (upload_dvc_file md5hex b64 vp B cfg db auth tok cwd fp c fs).map
          (fun t => (t.1, t.2.1))) ∧
    (∀ (md5hex : String → String) (b64 : String → Option String)
        (vp : String → String → Bool) (dbc : DataItem → Except String DataItem)
        (cfg : AuthConfig) (db : List UserRec) (auth tok : Option String)
        (cwd : List String) (fp : String) (c : Blob) (fs : FS)
        (r : DVCUploadResponse) (fs' : FS) (cr : Option DataItem),
      upload_dvc_file md5hex b64 vp dbc cfg db auth tok cwd fp c fs
          = Except.ok (r, fs', cr) → r.status = "success") ∧
    (∀ (err : String) (fp : String) (full : StorePath) (fs : FS) (u : UserRec),
      handle_dvc_upload_data_item_creation (fun _ => Except.error err) fp full fs u
        = none) ∧
    (∀ (fp : String) (full : StorePath) (fs : FS) (u : UserRec) (b : Blob),
      is_dvc_hash_path fp = true →
      fsLookup fs (full.dropLast ++ [full.getLastD "" ++ ".dir"]) = none →
      fsLookup fs (full.dropLast ++ [full.getLastD "" ++ ".dvc"]) = none →
      fsLookup fs full = some b →
      ∃ item, handle_dvc_upload_data_item_creation okCommit fp full fs u = some item ∧
        item.file_size = some (blobStatSize b)) := by
  refine ⟨?_, ?_, ?_, ?_⟩
  · intro md5hex b64 vp A B cfg db auth tok cwd fp c fs
    unfold upload_dvc_file
    cases hv : verify_dvc_auth b64 vp auth tok db cfg with
    | error e => rfl
    | ok user =>
      dsimp only
      cases hr : resolve_request_path md5hex cwd user fp with
      | error e => rfl
      | ok full_path => rfl
  · intro md5hex b64 vp dbc cfg db auth tok cwd fp c fs r fs' cr h
    unfold upload_dvc_file at h
    revert h
    cases hv : verify_dvc_auth b64 vp auth tok db cfg with
    | error e => intro h; simp at h
    | ok user =>
      intro h
      dsimp only at h
      cases hr : resolve_request_path md5hex cwd user fp with
      | error e => rw [hr] at h; simp at h
      | ok full_path =>
        rw [hr] at h
        simp only [Except.ok.injEq, Prod.mk.injEq] at h
        obtain ⟨hresp, -⟩ := h
        rw [← hresp]
  · intro err fp full fs u
    unfold handle_dvc_upload_data_item_creation
    split
    · cases hx : extract_hash_from_path fp with
      | error e => rfl
      | ok s => rfl
    · rfl
  · intro fp full fs u b h1 h2 h3 h4
    unfold handle_dvc_upload_data_item_creation
    rw [if_pos h1, extract_hash_of_hash_path h1]
    dsimp only
    rw [h2, h3, h4]
    dsimp only [Option.isSome_none, okCommit, create_data_item_from_dvc_upload]
    simp

theorem c9_catalog_advisory_witness :
    ((⟨"success", "files/md5/ab/cdef", none⟩ : DVCUploadResponse).status = "success") ∧
    (∃ item, handle_dvc_upload_data_item_creation okCommit "files/md5/ab/cdef"
        ["files", "md5", "ab", "cdef"]
        [(["files", "md5", "ab", "cdef"], Blob.bytes [9, 9])]
        { id := 1, email := "a@b", hashed_password := "pw", is_admin := false }
      = some item ∧ item.file_size = some (blobStatSize (Blob.bytes [9, 9]))) :=
  ⟨c9_catalog_advisory.2.1 md5hex0 b64None vpFalse failCommit authDisabledCfg []
      none none [] "files/md5/ab/cdef" (Blob.bytes [9, 9]) []
      ⟨"success", "files/md5/ab/cdef", none⟩
      [(["files", "md5", "ab", "cdef"], Blob.bytes [9, 9])] none (by decide),
    c9_catalog_advisory.2.2.2 "files/md5/ab/cdef" ["files", "md5", "ab", "cdef"]
      [(["files", "md5", "ab", "cdef"], Blob.bytes [9, 9])]
      { id := 1, email := "a@b", hashed_password := "pw", is_admin := false }
      (Blob.bytes [9, 9]) (by decide) (by decide) (by decide) (by decide)⟩
